import Mathlib

/-!
Shallow embedding of the NotLife arcade-shooter simulation core
(src/game of the repository) and proofs of the spec claims.

Machine integers from the Python source are modelled as `ℤ`, Python
floats as `ℚ` (or `ℝ` where transcendental functions occur), Python
`int(x)` truncation as `pyInt`, and Python exceptions as explicit
`Option PyError` / `Except PyError` results.  Mutations before a raised
exception persist (CPython semantics for in-place object mutation), so
functions that raise return the mutated state together with the error.
-/

namespace NotLife

/-- Python `int(q)` truncation toward zero, for a rational. -/
def pyInt (q : ℚ) : ℤ := if 0 ≤ q then ⌊q⌋ else ⌈q⌉

/-- Python exceptions that the embedded code can raise. -/
inductive PyError
  | nameError (msg : String)
  | attributeError (msg : String)
  | valueError (msg : String)
  deriving Repr, DecidableEq

/-! ## Player (src/game/entities/player.py)

Stat block of `Player.__init__` (lines 26-55).  Position, velocity,
sprite surface and the rect are omitted from this record: none of the
claims about the player concern them and no modelled operation below
reads them (the positional part of `Player.update`, lines 121-127, only
writes position/rect and is not part of any claim).  Times are pygame
millisecond ticks (`ℤ`), frame deltas are seconds (`ℚ`). -/
structure Player where
  health : ℤ
  max_health : ℤ
  shield : ℤ
  max_shield : ℤ
  damage : ℤ
  fire_rate : ℚ
  speed : ℚ
  level : ℤ
  experience : ℤ
  experience_to_level : ℤ
  skill_points : ℤ
  last_hit_time : ℤ
  invulnerable : Bool
  shield_regen_timer : ℚ
  hit_flash_timer : ℚ
  deriving Repr, DecidableEq

/-- The freshly constructed player (`Player.__init__` with the
constants of `GameSettings`): health 100, shield 50, damage 25,
fire rate 150 ms, speed 7, level 1, no experience, threshold 100. -/
def Player.init : Player :=
  { health := 100, max_health := 100, shield := 50, max_shield := 50
    damage := 25, fire_rate := 150, speed := 7
    level := 1, experience := 0, experience_to_level := 100, skill_points := 0
    last_hit_time := 0, invulnerable := false
    shield_regen_timer := 0, hit_flash_timer := 0 }

/-- `Player.take_damage` (player.py lines 171-189): no-op while
invulnerable; otherwise the shield absorbs `min(damage, shield)`, any
remainder reduces health (with a 0.3 s hit flash), and the player
becomes invulnerable with the shield-regen timer reset.  `now` is
`pygame.time.get_ticks()`. -/
def Player.take_damage (p : Player) (damage : ℤ) (now : ℤ) : Player :=
  if p.invulnerable then p
  else
    let shield_damage := min damage p.shield
    let shield1 := p.shield - shield_damage
    let damage1 := damage - shield_damage
    let p1 :=
      if 0 < damage1 then
        { p with health := p.health - damage1, hit_flash_timer := 3/10 }
      else p
    { p1 with shield := shield1, invulnerable := true,
              last_hit_time := now, shield_regen_timer := 0 }

/-- `Player.heal` (player.py lines 191-193). -/
def Player.heal (p : Player) (amount : ℤ) : Player :=
  { p with health := min p.max_health (p.health + amount) }

/-- `Player.level_up` (player.py lines 203-212): increments level and
skill points, recomputes the threshold
`int(LEVEL_UP_EXP * LEVEL_UP_MULTIPLIER ** (level - 1))` (with the
already-incremented level; the exponent is nonnegative on every
reachable state since the level starts at 1 and only increases, which
`Int.toNat` reflects), and fully restores health and shield. -/
def Player.level_up (p : Player) : Player :=
  let level1 := p.level + 1
  { p with
    level := level1
    skill_points := p.skill_points + 1
    experience_to_level := pyInt (100 * (3/2 : ℚ) ^ (level1 - 1).toNat)
    health := p.max_health
    shield := p.max_shield }

/-- The `while self.experience >= self.experience_to_level` loop of
`Player.add_experience` (player.py lines 199-201), with explicit fuel:
each terminating run of the Python loop is `add_experience_loop fuel`
for every sufficiently large `fuel`. -/
def Player.add_experience_loop : ℕ → Player → Player
  | 0, p => p
  | fuel + 1, p =>
    if p.experience_to_level ≤ p.experience then
      Player.add_experience_loop fuel
        (Player.level_up { p with experience := p.experience - p.experience_to_level })
    else p

/-- `Player.add_experience` (player.py lines 195-201). -/
def Player.add_experience (p : Player) (amount : ℤ) (fuel : ℕ) : Player :=
  Player.add_experience_loop fuel { p with experience := p.experience + amount }

/-- The five upgrade keys of `GameSettings.UPGRADES`. -/
inductive UpgradeType
  | damage | fire_rate | health | shield | speed
  deriving Repr, DecidableEq

/-- `Player.apply_upgrade` (player.py lines 214-235): fails returning
`false` without skill points, otherwise mutates the stat by the
configured multiplier (damage ×1.2, fire_rate ×0.85 floored at 50,
health ×1.3, shield ×1.25, speed ×1.15) and consumes one point. -/
def Player.apply_upgrade (p : Player) (u : UpgradeType) : Player × Bool :=
  if p.skill_points ≤ 0 then (p, false)
  else
    let p1 :=
      match u with
      | .damage => { p with damage := pyInt ((p.damage : ℚ) * (6/5)) }
      | .fire_rate => { p with fire_rate := max 50 (p.fire_rate * (17/20)) }
      | .health =>
          let mh := pyInt ((p.max_health : ℚ) * (13/10))
          { p with max_health := mh, health := mh }
      | .shield =>
          let ms := pyInt ((p.max_shield : ℚ) * (5/4))
          { p with max_shield := ms, shield := ms }
      | .speed => { p with speed := p.speed * (23/20) }
    ({ p1 with skill_points := p1.skill_points - 1 }, true)

/-- The stat-mutating part of `Player.update` (player.py lines
129-144): invulnerability expiry after 1000 ms, shield regeneration of
5 points once the regen timer reaches 3 s (timer reset only when the
regen fires), and the hit-flash countdown.  Lines 121-127 (position
integration and screen clamping) and 146-151 (trail particles) write
only position/visual state, none of which is in this record. -/
def Player.update_stats (p : Player) (delta_time : ℚ) (now : ℤ) : Player :=
  let p1 :=
    if p.invulnerable ∧ 1000 < now - p.last_hit_time then
      { p with invulnerable := false }
    else p
  let t := p1.shield_regen_timer + delta_time
  let p2 :=
    if 3 ≤ t ∧ p1.shield < p1.max_shield then
      { p1 with shield := min p1.max_shield (p1.shield + 5), shield_regen_timer := 0 }
    else { p1 with shield_regen_timer := t }
  if 0 < p2.hit_flash_timer then
    { p2 with hit_flash_timer := p2.hit_flash_timer - delta_time }
  else p2

/-- The range invariant that actually holds on the player stat block:
the shield stays within `[0, max_shield]`, health never exceeds
`max_health`, and both maxima stay nonnegative.  (The lower bound
`0 ≤ health` is deliberately absent: `take_damage` never floors
health at zero.) -/
def PlayerInv (p : Player) : Prop :=
  0 ≤ p.shield ∧ p.shield ≤ p.max_shield ∧ p.health ≤ p.max_health ∧
    0 ≤ p.max_shield ∧ 0 ≤ p.max_health

instance : DecidablePred PlayerInv := fun p => by
  unfold PlayerInv; infer_instance

/-! ## Wave system (src/game/systems/wave_system.py)

`game` is consulted only for `game.score` (mutated) and
`len(game.enemies)` (read), so those two appear as explicit score /
enemy-count arguments. -/

/-- `WaveSystem.__init__` fields (wave_system.py lines 17-26).  The
wave-config table and `wave_start_time` do not influence any claim and
are read only by `start_wave`, which no claim exercises. -/
structure WaveSystem where
  current_wave : ℤ
  wave_timer : ℚ
  wave_duration : ℚ
  is_wave_active : Bool
  enemies_defeated : ℤ
  total_wave_enemies : ℤ
  wave_completion_bonus : ℤ
  deriving Repr, DecidableEq

/-- `WaveSystem._is_wave_completed` (wave_system.py lines 94-102):
all target kills reached, at least the 10-second minimum wave duration
elapsed, and the live enemy group empty. -/
def WaveSystem.is_wave_completed (ws : WaveSystem) (enemy_count : ℕ) : Bool :=
  decide (ws.total_wave_enemies ≤ ws.enemies_defeated) &&
    decide ((10 : ℚ) ≤ ws.wave_timer) && decide (enemy_count = 0)

/-- `WaveSystem._complete_wave` (wave_system.py lines 104-122):
deactivates the wave and adds `max(0, int((wave_duration - wave_timer)
* 10)) + wave_completion_bonus * current_wave` to the score - and then
executes `self._prepare_next_wave(game)`.  No method named
`_prepare_next_wave` is defined anywhere in the repository, so CPython
raises `AttributeError` at that line; the mutations made before the
raise persist. -/
def WaveSystem.complete_wave (ws : WaveSystem) (score : ℤ) :
    WaveSystem × ℤ × Option PyError :=
  let ws1 := { ws with is_wave_active := false }
  let time_bonus := max 0 (pyInt ((ws1.wave_duration - ws1.wave_timer) * 10))
  let completion_bonus := ws1.wave_completion_bonus * ws1.current_wave
  let total_bonus := time_bonus + completion_bonus
  (ws1, score + total_bonus,
    some (.attributeError "WaveSystem object has no attribute _prepare_next_wave"))

/-- `WaveSystem._timeout_wave` (wave_system.py lines 124-129): only
deactivates the wave. -/
def WaveSystem.timeout_wave (ws : WaveSystem) : WaveSystem :=
  { ws with is_wave_active := false }

/-- `WaveSystem.update` (wave_system.py lines 37-50): no-op while
inactive; otherwise advances the wave timer, completes the wave when
`_is_wave_completed`, else times out once the timer reaches
`wave_duration`. -/
def WaveSystem.update (ws : WaveSystem) (delta_time : ℚ) (enemy_count : ℕ)
    (score : ℤ) : WaveSystem × ℤ × Option PyError :=
  if ws.is_wave_active then
    let ws1 := { ws with wave_timer := ws.wave_timer + delta_time }
    if ws1.is_wave_completed enemy_count then ws1.complete_wave score
    else if ws1.wave_duration ≤ ws1.wave_timer then (ws1.timeout_wave, score, none)
    else (ws1, score, none)
  else (ws, score, none)

/-! ## Enemies: damage and shooting (src/game/entities/enemy.py) -/

/-- The slice of enemy state that `take_damage` touches
(enemy.py lines 298-311); `alive` is the pygame sprite-group
membership, cleared by `kill()` in `on_death`. -/
structure CEnemy where
  health : ℤ
  max_health : ℤ
  hit_flash_timer : ℚ
  alive : Bool
  deriving Repr, DecidableEq

/-- `Enemy.take_damage` (enemy.py lines 298-304) together with
`on_death` (lines 306-311): subtract damage, start the 0.2 s hit
flash, and on `health <= 0` remove the sprite from its groups. -/
def CEnemy.take_damage (e : CEnemy) (damage : ℤ) : CEnemy :=
  let e1 := { e with health := e.health - damage, hit_flash_timer := 1/5 }
  if e1.health ≤ 0 then { e1 with alive := false } else e1

/-- The slice of enemy state that `_update_shooting` reads and
writes (enemy.py lines 269-282). -/
structure EnemyShoot where
  centerx : ℤ
  centery : ℤ
  shot_cooldown : ℚ
  fire_rate : ℚ
  deriving Repr, DecidableEq

/-- The rect-center coordinates of the player as read by
`_update_shooting`. -/
structure PlayerRectC where
  centerx : ℤ
  centery : ℤ
  deriving Repr, DecidableEq

/-- `Enemy._update_shooting` (enemy.py lines 269-282): decrement the
cooldown; once it is `<= 0`, fire (`shoot()` plus cooldown reload) iff
`player.rect.centerx - 100 < self.rect.centerx < player.rect.centerx +
100` and `player.rect.centery < self.rect.centery`.  The returned
`Bool` records whether `shoot()` was invoked. -/
def Enemy.update_shooting (e : EnemyShoot) (delta_time : ℚ)
    (player : Option PlayerRectC) : EnemyShoot × Bool :=
  match player with
  | none => (e, false)
  | some pr =>
    let e1 := { e with shot_cooldown := e.shot_cooldown - delta_time }
    if e1.shot_cooldown ≤ 0 then
      if pr.centerx - 100 < e1.centerx ∧ e1.centerx < pr.centerx + 100 ∧
          pr.centery < e1.centery then
        ({ e1 with shot_cooldown := e1.fire_rate / 1000 }, true)
      else (e1, false)
    else (e1, false)

/-! ## Enemy.shoot and the bullet containers
(enemy.py lines 284-296, bullet.py lines 174-210, game.py lines 59-64)

`Enemy.shoot` constructs an `EnemyBullet` and binds it to a local
variable that is never added to any sprite group or manager ("Add
bullet to game (this would be handled by a bullet manager)" is only a
comment); the sole surviving mutation is `last_shot_time`.  Neither
`BulletManager.add_enemy_bullet` nor any other insertion into an
enemy-bullet container is called anywhere in the repository. -/

/-- An enemy bullet as constructed by `EnemyBullet.__init__`:
position (center x, spawning at the shooter's rect bottom), damage. -/
structure EBullet where
  x : ℤ
  y : ℤ
  damage : ℤ
  deriving Repr, DecidableEq

/-- The three bullet groups of `BulletManager` /
`NotLifeGame` (player, enemy, special). -/
structure BulletGroups where
  player_bullets : List EBullet
  enemy_bullets : List EBullet
  special_bullets : List EBullet
  deriving Repr, DecidableEq

/-- The slice of enemy state read and written by `Enemy.shoot`. -/
structure EnemyGun where
  centerx : ℤ
  bottom : ℤ
  damage : ℤ
  fire_rate : ℤ
  last_shot_time : ℤ
  deriving Repr, DecidableEq

/-- `Enemy.shoot` (enemy.py lines 284-296): if the per-shot rate limit
has elapsed, construct an `EnemyBullet` (discarded - it is never added
to any container) and record the shot time. -/
def Enemy.shoot (e : EnemyGun) (now : ℤ) (groups : BulletGroups) :
    EnemyGun × BulletGroups :=
  if e.fire_rate ≤ now - e.last_shot_time then
    let _bullet : EBullet := { x := e.centerx, y := e.bottom, damage := e.damage }
    ({ e with last_shot_time := now }, groups)
  else (e, groups)

/-! ## Particle system (src/game/entities/particle.py) -/

/-- `GameSettings.MAX_PARTICLES`. -/
def MAX_PARTICLES : ℕ := 500

/-- The particle fields that survive `Particle.__init__`
(particle.py lines 14-37) and matter to the capacity claim; the purely
visual fields (color, type, fade, rotation, scale) are carried along
as needed by nothing below and are omitted. -/
structure Particle where
  position : ℚ × ℚ
  velocity : ℚ × ℚ
  lifetime : ℚ
  deriving Repr, DecidableEq

/-- `ParticleSystem.add_particle` (particle.py lines 126-129): append
only while strictly below `MAX_PARTICLES`, else silently drop. -/
def ParticleSystem.add_particle (particles : List Particle) (p : Particle) :
    List Particle :=
  if particles.length < MAX_PARTICLES then particles ++ [p] else particles

/-- Every factory helper (`create_explosion`, `create_trail`,
`create_sparkle`) and `ParticleEmitter.emit_particle` inserts each of
its (randomly parameterized) particles through one `add_particle` call
in sequence; with the random draws abstracted into the input list, any
such helper is this fold. -/
def ParticleSystem.add_all (particles : List Particle)
    (batch : List Particle) : List Particle :=
  batch.foldl ParticleSystem.add_particle particles

/-! ## Collision system (src/game/systems/collision_system.py)

`collision_system.py` imports only `pygame`, `math` and
`typing.TYPE_CHECKING`; the `GameSettings` name used at runtime inside
`_handle_player_bullet_enemy` (line 76) and
`_handle_enemy_bullet_player` (line 94) is never imported, so the
first executed handler raises `NameError` while evaluating the
`create_explosion` arguments - after `take_damage` has already been
applied, and before any particle or screen-shake side effect.

The pixel-mask overlap test is geometry owned by pygame; it enters the
model as an oracle `hits` relation.  Sprite-group iteration order is
the list order.  A player bullet is modelled by its damage plus the
identity index pygame uses for `dict` keys. -/

/-- A player bullet as seen by collision pass 1. -/
structure PBullet where
  damage : ℤ
  deriving Repr, DecidableEq

/-- `pygame.sprite.groupcollide(player_bullets, enemies, True, False,
collide_mask)`: for each bullet (group order) the list of enemy
indices it mask-overlaps; bullets with no overlap are absent from the
dict.  The `True` kills every colliding bullet. -/
def groupcollide (hits : PBullet → ℕ → Bool) (bullets : List PBullet)
    (enemy_count : ℕ) : List (PBullet × List ℕ) :=
  bullets.filterMap fun b =>
    let idxs := (List.range enemy_count).filter (hits b)
    if idxs.isEmpty then none else some (b, idxs)

/-- `CollisionSystem._handle_player_bullet_enemy` (collision_system.py
lines 67-83): the enemy takes `bullet.damage`; the following
`particle_system.create_explosion(..., color=GameSettings.COLORS[...])`
raises `NameError` (missing import), so neither the explosion nor the
damage-30 screen-shake request is reached. -/
def handle_player_bullet_enemy (b : PBullet) (e : CEnemy) :
    CEnemy × Option PyError :=
  (e.take_damage b.damage,
    some (.nameError "name GameSettings is not defined"))

/-- Placeholder for an out-of-range index read; `groupcollide` only
produces indices below the group size, so it is never consulted. -/
def defaultEnemy : CEnemy :=
  { health := 0, max_health := 0, hit_flash_timer := 0, alive := false }

/-- Run the handler over one bullet entry of the groupcollide dict,
stopping at the first raised exception (CPython unwinds out of
`check_collisions`). -/
def runPairHandlers (b : PBullet) : List ℕ → List CEnemy →
    List CEnemy × Option PyError
  | [], es => (es, none)
  | i :: rest, es =>
    let e := es.getD i defaultEnemy
    match handle_player_bullet_enemy b e with
    | (e1, some err) => (es.set i e1, some err)
    | (e1, none) => runPairHandlers b rest (es.set i e1)

/-- Run the handlers over the whole groupcollide dict in order,
stopping at the first raised exception. -/
def runPass1Handlers : List (PBullet × List ℕ) → List CEnemy →
    List CEnemy × Option PyError
  | [], es => (es, none)
  | (b, idxs) :: rest, es =>
    match runPairHandlers b idxs es with
    | (es1, some err) => (es1, some err)
    | (es1, none) => runPass1Handlers rest es1

/-- Collision pass 1 of `CollisionSystem.check_collisions`
(collision_system.py lines 30-38): `groupcollide` destroys every
mask-hit player bullet, then the handler loop applies damage and (in
this code state) raises on the first pair.  The result carries the
surviving player bullets, the enemies, the particle count, the emitted
screen-shake requests, and the propagated exception, in that order. -/
def collisionPass1 (hits : PBullet → ℕ → Bool) (bullets : List PBullet)
    (enemies : List CEnemy) (particle_count : ℕ) :
    List PBullet × List CEnemy × ℕ × List ℤ × Option PyError :=
  let surviving := bullets.filter fun b =>
    ((List.range enemies.length).filter (hits b)).isEmpty
  let pairs := groupcollide hits bullets enemies.length
  let (enemies1, err) := runPass1Handlers pairs enemies
  (surviving, enemies1, particle_count, [], err)

/-- Collision pass 2 (`check_collisions` lines 40-47): enemy bullets
versus the player with `dokill=True`; the handler
(`_handle_enemy_bullet_player`) applies `player.take_damage` and then
raises the same `NameError`.  With the enemy-bullet group empty - its
only possible state, see `Enemy.shoot` - the pass is a no-op. -/
def collisionPass2 (hits : EBullet → Bool) (enemy_bullets : List EBullet)
    (player : Player) (now : ℤ) (particle_count : ℕ) :
    List EBullet × Player × ℕ × List ℤ × Option PyError :=
  let surviving := enemy_bullets.filter fun b => !hits b
  match enemy_bullets.filter hits with
  | [] => (surviving, player, particle_count, [], none)
  | b :: _ =>
    (surviving, player.take_damage b.damage now, particle_count, [],
      some (.nameError "name GameSettings is not defined"))

/-! ## Homing missile (src/game/entities/bullet.py)

Float state is modelled over `ℝ` because the update uses `atan2`,
`cos`, `sin` and `sqrt`.  `math.atan2 y x` is the argument of the
complex number `x + y*I`; Python float `%` with a positive modulus is
floor-based modulo; `math.radians d` is `d * pi / 180`. -/

noncomputable section

/-- Python `math.atan2 y x`. -/
def atan2 (y x : ℝ) : ℝ := Complex.arg ⟨x, y⟩

/-- Python float `a % b` for `b > 0` (floor-based). -/
def fmod (a b : ℝ) : ℝ := a - b * ⌊a / b⌋

/-- Python `math.radians`. -/
def radians (d : ℝ) : ℝ := d * Real.pi / 180

/-- Python `int(x)` truncation toward zero, for a real. -/
def pyIntR (x : ℝ) : ℤ := if 0 ≤ x then ⌊x⌋ else ⌈x⌉

/-- `HomingMissile` state (bullet.py lines 13-29 and 86-91): position,
unit heading, scalar speed, damage, the non-owning target reference
(liveness flag plus the target rect center when alive), the constant
turn rate (2 degrees) and acceleration (0.1), the lifetime budget
(2000 ms) with its spawn tick, and the sprite-group membership flag
cleared by `kill()`. -/
structure Missile where
  position : ℝ × ℝ
  direction : ℝ × ℝ
  speed : ℝ
  damage : ℤ
  target_alive : Bool
  target_center : ℝ × ℝ
  turn_rate : ℝ
  acceleration : ℝ
  lifetime : ℤ
  spawn_time : ℤ
  alive : Bool

open Classical in
/-- `Bullet.update` (bullet.py lines 50-63), the base-class step the
missile ends with: advance `position += direction * speed * delta_time
* 60`, then `kill()` on lifetime expiry or on the 6x12 bullet rect
(centered at the truncated position, pygame rect semantics) leaving
the screen rectangle. -/
def Bullet.update_base (m : Missile) (delta_time : ℝ) (now : ℤ) : Missile :=
  let pos1 : ℝ × ℝ :=
    (m.position.1 + m.direction.1 * m.speed * delta_time * 60,
     m.position.2 + m.direction.2 * m.speed * delta_time * 60)
  let cx := pyIntR pos1.1
  let cy := pyIntR pos1.2
  let left := cx - 3
  let top := cy - 6
  let offscreen : Prop :=
    left + 6 < 0 ∨ 1200 < left ∨ top + 12 < 0 ∨ 800 < top
  let dead : Prop := m.lifetime < now - m.spawn_time ∨ offscreen
  { m with position := pos1, alive := m.alive && !(decide dead) }

/-- The missile heading as an angle, exactly as
`HomingMissile.update` samples it: `atan2(-direction.y, direction.x)`
(screen y grows downward). -/
def Missile.current_angle (m : Missile) : ℝ :=
  atan2 (-m.direction.2) m.direction.1

/-- The normalized bearing to the live target
(`(target.rect.center - position).normalize()`), then its angle. -/
def Missile.target_angle (m : Missile) : ℝ :=
  let diff : ℝ × ℝ :=
    (m.target_center.1 - m.position.1, m.target_center.2 - m.position.2)
  let len := Real.sqrt (diff.1 ^ 2 + diff.2 ^ 2)
  atan2 (-(diff.2 / len)) (diff.1 / len)

/-- The shortest signed angle difference:
`(target - current + pi) % (2 pi) - pi`. -/
def Missile.angle_diff (m : Missile) : ℝ :=
  fmod (m.target_angle - m.current_angle + Real.pi) (2 * Real.pi) - Real.pi

/-- The per-frame turn cap `math.radians(self.turn_rate) * delta_time * 60`. -/
def Missile.max_turn (m : Missile) (delta_time : ℝ) : ℝ :=
  radians m.turn_rate * delta_time * 60

/-- The clamped turn `max(-max_turn, min(max_turn, angle_diff))`. -/
def Missile.turn_amount (m : Missile) (delta_time : ℝ) : ℝ :=
  max (-(m.max_turn delta_time)) (min (m.max_turn delta_time) (m.angle_diff))

/-- The post-turn heading angle. -/
def Missile.new_angle (m : Missile) (delta_time : ℝ) : ℝ :=
  m.current_angle + m.turn_amount delta_time

/-- `HomingMissile.update` (bullet.py lines 93-119).  With a live
target: recompute the bearing (pygame `Vector2.normalize` raises
`ValueError` on a zero-length vector, i.e. when the target center
coincides with the missile position), turn by the clamped amount,
rebuild the heading from the new angle, accelerate, then run the base
bullet step.  With the target dead or absent (`if self.target and
self.target.alive()` false): the base step alone - straight-line
flight on the unchanged heading, no fallible operation. -/
def HomingMissile.update (m : Missile) (delta_time : ℝ) (now : ℤ) :
    Except PyError Missile :=
  if m.target_alive then
    if m.target_center = m.position then
      .error (.valueError "Cannot normalize a vector with zero length")
    else
      let na := m.new_angle delta_time
      let m1 := { m with
        direction := (Real.cos na, -Real.sin na)
        speed := m.speed + m.acceleration * delta_time * 60 }
      .ok (Bullet.update_base m1 delta_time now)
  else
    .ok (Bullet.update_base m delta_time now)

end

/-! ## Off-screen cleanup and spawn placement
(src/game/core/game.py lines 164-192 and 250-267,
src/game/systems/spawn_system.py lines 98-206)

`pygame.Rect` coordinates are integers; `get_rect(center=(cx, cy))`
truncates float centers toward zero and places the rect at
`(cx - w/2, cy - h/2)` (C integer division; sizes are positive). -/

/-- An integer pygame rect: left, top, width, height. -/
structure IRect where
  left : ℤ
  top : ℤ
  width : ℤ
  height : ℤ
  deriving Repr, DecidableEq

/-- `rect.right`. -/
def IRect.right (r : IRect) : ℤ := r.left + r.width

/-- `rect.bottom`. -/
def IRect.bottom (r : IRect) : ℤ := r.top + r.height

/-- `NotLifeGame._is_on_screen` (game.py lines 264-267): strict
overlap with the 1200x800 screen rectangle on all four edges. -/
def is_on_screen (r : IRect) : Bool :=
  decide (0 < r.right) && decide (r.left < 1200) &&
    decide (0 < r.bottom) && decide (r.top < 800)

/-- The enemy branch of `NotLifeGame._cleanup_objects` (game.py lines
260-262): kill every enemy not `_is_on_screen`. -/
def cleanup_enemies (enemies : List IRect) : List IRect :=
  enemies.filter is_on_screen

/-- The enemy group at the end of a PLAYING frame, as ordered by
`_update_playing` (game.py lines 164-192): the spawn-system update
(line 178) adds `spawned` to the group, and `_cleanup_objects`
(line 188) runs afterwards in the same frame. -/
def frame_end_enemies (existing spawned : List IRect) : List IRect :=
  cleanup_enemies (existing ++ spawned)

/-- The four enemy types (enemy.py lines 17-21). -/
inductive EnemyType
  | SCOUT | FIGHTER | BOMBER | ELITE
  deriving Repr, DecidableEq

/-- The per-type sprite sizes from `Enemy._get_type_config`
(enemy.py lines 69-113). -/
def enemy_size : EnemyType → ℤ × ℤ
  | .SCOUT => (30, 30)
  | .FIGHTER => (45, 45)
  | .BOMBER => (60, 60)
  | .ELITE => (50, 50)

/-- The rect of a freshly constructed enemy of type `t` centered at
integer coordinates `(cx, cy)` (enemy.py line 40). -/
def spawn_rect (t : EnemyType) (cx cy : ℤ) : IRect :=
  let (w, h) := enemy_size t
  { left := cx - w / 2, top := cy - h / 2, width := w, height := h }

/-- `SpawnSystem._spawn_random` (spawn_system.py lines 109-116):
center `(x, -50)` with `x` drawn from `[50, 1150]`. -/
def spawn_random_center (x : ℤ) : ℤ × ℤ := (x, -50)

/-- `SpawnSystem._spawn_v_formation` (spawn_system.py lines 133-150):
for `i < 5`, left and right wing enemies centered at
`(600 ∓ i*60, -100 + i*30)` (`center_x = 1200 // 2`). -/
def spawn_v_centers : List (ℤ × ℤ) :=
  (List.range 5).flatMap fun i =>
    [((600 : ℤ) - i * 60, -100 + i * 30), ((600 : ℤ) + i * 60, -100 + i * 30)]

/-- `SpawnSystem._spawn_line_formation` (spawn_system.py lines
152-162): seven enemies at `(355 + i*70, -50)`
(`start_x = (1200 - 490) // 2 = 355`). -/
def spawn_line_centers : List (ℤ × ℤ) :=
  (List.range 7).map fun i => ((355 : ℤ) + i * 70, -50)

/-- `SpawnSystem._spawn_wave` (spawn_system.py lines 179-191):
staggered centers `(start_x + jitter i, -50 - i*40)` with the random
horizontal jitter drawn from `[-50, 50]`. -/
def spawn_wave_centers (start_x : ℤ) (jitter : ℕ → ℤ) (wave_size : ℕ) :
    List (ℤ × ℤ) :=
  (List.range wave_size).map fun i => (start_x + jitter i, -50 - (i : ℤ) * 40)

/-- `SpawnSystem._spawn_boss` (spawn_system.py lines 193-206):
an ELITE at `(600, -100)`. -/
def spawn_boss_center : ℤ × ℤ := (600, -100)

/-- `SpawnSystem._spawn_circle_formation` (spawn_system.py lines
164-177): eight enemies on the circle of radius 100 around
`(600, -150)` (float centers, truncated by the rect constructor). -/
noncomputable def spawn_circle_center (i : ℕ) : ℝ × ℝ :=
  (600 + Real.cos (2 * Real.pi / 8 * i) * 100,
   -150 + Real.sin (2 * Real.pi / 8 * i) * 100)

/-- The rect of an enemy constructed at a float center. -/
noncomputable def spawn_rect_real (t : EnemyType) (c : ℝ × ℝ) : IRect :=
  spawn_rect t (pyIntR c.1) (pyIntR c.2)

/-! ## Supporting lemmas -/

theorem pyInt_nonneg {q : ℚ} (h : 0 ≤ q) : 0 ≤ pyInt q := by
  unfold pyInt
  rw [if_pos h]
  exact Int.le_floor.mpr (by exact_mod_cast h)

theorem level_up_inv {p : Player} (hp : PlayerInv p) :
    PlayerInv (Player.level_up p) := by
  obtain ⟨h1, h2, h3, h4, h5⟩ := hp
  exact ⟨h4, le_refl _, le_refl _, h4, h5⟩

theorem add_experience_loop_inv :
    ∀ (fuel : ℕ) (p : Player), PlayerInv p →
      PlayerInv (Player.add_experience_loop fuel p)
  | 0, _, hp => hp
  | fuel + 1, p, hp => by
    unfold Player.add_experience_loop
    split_ifs with h
    · exact add_experience_loop_inv fuel _ (level_up_inv hp)
    · exact hp

theorem take_damage_fields (p : Player) (d now : ℤ)
    (hinv : p.invulnerable = false) :
    (p.take_damage d now).shield = p.shield - min d p.shield ∧
    (p.take_damage d now).max_shield = p.max_shield ∧
    (p.take_damage d now).health =
      (if 0 < d - min d p.shield then p.health - (d - min d p.shield)
       else p.health) ∧
    (p.take_damage d now).max_health = p.max_health ∧
    (p.take_damage d now).invulnerable = true := by
  simp only [Player.take_damage, hinv, Bool.false_eq_true, if_false]
  split_ifs with h <;> simp

theorem update_stats_fields (p : Player) (dt : ℚ) (now : ℤ) :
    ((p.update_stats dt now).shield = p.shield ∨
      (p.update_stats dt now).shield = min p.max_shield (p.shield + 5)) ∧
    (p.update_stats dt now).max_shield = p.max_shield ∧
    (p.update_stats dt now).health = p.health ∧
    (p.update_stats dt now).max_health = p.max_health := by
  simp only [Player.update_stats]
  split_ifs <;> simp

/-! ## Claims -/

/-- C1: for every damage amount `d ≥ 0` and every non-invulnerable
player with shield `s` and health `h`, `take_damage d` yields
shield `max 0 (s - d)`, health `h - max 0 (d - s)`, and sets the
invulnerability flag. -/
theorem claim_C1 (p : Player) (d now : ℤ) (_hd : 0 ≤ d)
    (hinv : p.invulnerable = false) :
    (p.take_damage d now).shield = max 0 (p.shield - d) ∧
    (p.take_damage d now).health = p.health - max 0 (d - p.shield) ∧
    (p.take_damage d now).invulnerable = true := by
  obtain ⟨hs, _, hh, _, hi⟩ := take_damage_fields p d now hinv
  refine ⟨by rw [hs]; omega, ?_, hi⟩
  rw [hh]
  split_ifs with h <;> omega

/-- C1 witness: the spec scenario - the fresh player (health 100,
shield 50, not invulnerable) taking damage 80 ends with shield 0,
health 70, invulnerable. -/
theorem claim_C1_witness :
    ((0 : ℤ) ≤ 80 ∧ Player.init.invulnerable = false) ∧
    ((Player.init.take_damage 80 0).shield = max 0 (Player.init.shield - 80) ∧
     (Player.init.take_damage 80 0).health =
        Player.init.health - max 0 (80 - Player.init.shield) ∧
     (Player.init.take_damage 80 0).invulnerable = true) ∧
    (Player.init.take_damage 80 0).shield = 0 ∧
    (Player.init.take_damage 80 0).health = 70 :=
  ⟨⟨by decide, rfl⟩, claim_C1 Player.init 80 0 (by decide) rfl,
    by decide, by decide⟩

/-- C2 counterexample: a single `take_damage 200` on the freshly
constructed player (health 100, shield 50, not invulnerable) leaves
health at -50, so health does not stay in `[0, max_health]`. -/
theorem claim_C2_counterexample :
    (Player.init.take_damage 200 0).health = -50 ∧
      ¬ (0 ≤ (Player.init.take_damage 200 0).health) := by decide

/-- C2 (amended): every player operation preserves
shield ∈ `[0, max_shield]`, health ≤ `max_health` and the
nonnegativity of both maxima (given nonnegative damage and heal
amounts) - but not the lower bound on health, which `take_damage`
can push below zero (see the counterexample). -/
theorem claim_C2 (p : Player) (hp : PlayerInv p) :
    (∀ d now, 0 ≤ d → PlayerInv (p.take_damage d now)) ∧
    (∀ a, 0 ≤ a → PlayerInv (p.heal a)) ∧
    (∀ amount fuel, PlayerInv (p.add_experience amount fuel)) ∧
    (∀ u, PlayerInv (p.apply_upgrade u).1) ∧
    (∀ delta_time now, PlayerInv (p.update_stats delta_time now)) := by
  obtain ⟨h1, h2, h3, h4, h5⟩ := hp
  refine ⟨?_, ?_, ?_, ?_, ?_⟩
  · intro d now hd
    by_cases hi : p.invulnerable = true
    · have : p.take_damage d now = p := by
        simp [Player.take_damage, hi]
      rw [this]
      exact ⟨h1, h2, h3, h4, h5⟩
    · obtain ⟨hs, hms, hh, hmh, _⟩ :=
        take_damage_fields p d now (by simpa using hi)
      refine ⟨by rw [hs]; omega, by rw [hs, hms]; omega, ?_,
        by rw [hms]; omega, by rw [hmh]; omega⟩
      rw [hh, hmh]
      split_ifs with h <;> omega
  · intro a ha
    refine ⟨h1, h2, ?_, h4, h5⟩
    show min p.max_health (p.health + a) ≤ p.max_health
    exact min_le_left _ _
  · intro amount fuel
    exact add_experience_loop_inv fuel _ ⟨h1, h2, h3, h4, h5⟩
  · intro u
    simp only [Player.apply_upgrade]
    split_ifs with hs
    · exact ⟨h1, h2, h3, h4, h5⟩
    · have hq : (0 : ℚ) ≤ (p.max_health : ℚ) * (13/10) :=
        mul_nonneg (by exact_mod_cast h5) (by norm_num)
      have hq2 : (0 : ℚ) ≤ (p.max_shield : ℚ) * (5/4) :=
        mul_nonneg (by exact_mod_cast h4) (by norm_num)
      cases u
      · exact ⟨h1, h2, h3, h4, h5⟩
      · exact ⟨h1, h2, h3, h4, h5⟩
      · exact ⟨h1, h2, le_refl _, h4, pyInt_nonneg hq⟩
      · exact ⟨pyInt_nonneg hq2, le_refl _, h3, pyInt_nonneg hq2, h5⟩
      · exact ⟨h1, h2, h3, h4, h5⟩
  · intro delta_time now
    obtain ⟨hs, hms, hh, hmh⟩ := update_stats_fields p delta_time now
    rcases hs with hs | hs <;>
      exact ⟨by rw [hs]; omega, by rw [hs, hms]; omega,
        by rw [hh, hmh]; omega, by rw [hms]; omega, by rw [hmh]; omega⟩

/-- C3: `_is_wave_completed` is true exactly when the kill target is
reached, the 10-second minimum wave duration has elapsed, and the live
enemy group is empty; in particular it is false whenever any enemy is
alive, regardless of kill count or timer. -/
theorem claim_C3 (ws : WaveSystem) (enemy_count : ℕ) :
    (ws.is_wave_completed enemy_count = true ↔
      (ws.total_wave_enemies ≤ ws.enemies_defeated ∧
        (10 : ℚ) ≤ ws.wave_timer ∧ enemy_count = 0)) ∧
    (0 < enemy_count → ws.is_wave_completed enemy_count = false) := by
  constructor
  · simp [WaveSystem.is_wave_completed, and_assoc]
  · intro hpos
    simp [WaveSystem.is_wave_completed]
    omega

/-- C3 witness: with 12 of 10 kills and 45 s on the timer but 3 live
enemies, the wave is not completed. -/
theorem claim_C3_witness :
    WaveSystem.is_wave_completed
      { current_wave := 1, wave_timer := 45, wave_duration := 45,
        is_wave_active := true, enemies_defeated := 12,
        total_wave_enemies := 10, wave_completion_bonus := 100 } 3 = false :=
  (claim_C3 _ 3).2 (by decide)

/-- C4: on every wave completion the score grows by exactly the
time-remaining bonus `max 0 (int ((wave_duration - wave_timer) * 10))`
plus `wave_completion_bonus * current_wave` and the wave is
deactivated - but the completion path then raises `AttributeError`,
because the `_prepare_next_wave` method it invokes does not exist, so
it never finishes cleanly: `WaveSystem.update` on an active, completed
wave state propagates that error. -/
theorem claim_C4 (ws : WaveSystem) (score : ℤ) (delta_time : ℚ)
    (enemy_count : ℕ) (hact : ws.is_wave_active = true)
    (hcompl : WaveSystem.is_wave_completed
      { ws with wave_timer := ws.wave_timer + delta_time } enemy_count = true) :
    (ws.complete_wave score).2.1 =
      score + max 0 (pyInt ((ws.wave_duration - ws.wave_timer) * 10)) +
        ws.wave_completion_bonus * ws.current_wave ∧
    (ws.complete_wave score).1.is_wave_active = false ∧
    (ws.complete_wave score).2.2 =
      some (.attributeError
        "WaveSystem object has no attribute _prepare_next_wave") ∧
    ws.update delta_time enemy_count score =
      WaveSystem.complete_wave
        { ws with wave_timer := ws.wave_timer + delta_time } score := by
  refine ⟨?_, rfl, rfl, ?_⟩
  · simp [WaveSystem.complete_wave, add_assoc]
  · rw [hact] at hcompl
    simp [WaveSystem.update, hact, hcompl]

/-- C4 witness: a concrete completed wave (wave 1, timer at 10 s of a
45 s duration, 10 of 10 kills, no live enemies): the update call adds
the 350 + 100 bonus, deactivates, and raises. -/
theorem claim_C4_witness :
    ({ current_wave := 1, wave_timer := 19/2, wave_duration := 45,
       is_wave_active := true, enemies_defeated := 10,
       total_wave_enemies := 10,
       wave_completion_bonus := 100 : WaveSystem }.is_wave_active = true ∧
     WaveSystem.is_wave_completed
      { current_wave := 1, wave_timer := 19/2 + 1/2, wave_duration := 45,
        is_wave_active := true, enemies_defeated := 10,
        total_wave_enemies := 10, wave_completion_bonus := 100 } 0 = true) ∧
    (WaveSystem.complete_wave
      { current_wave := 1, wave_timer := 19/2, wave_duration := 45,
        is_wave_active := true, enemies_defeated := 10,
        total_wave_enemies := 10, wave_completion_bonus := 100 } 0).2.1 =
      0 + max 0 (pyInt ((45 - 19/2) * 10)) + 100 * 1 ∧
    (WaveSystem.complete_wave
      { current_wave := 1, wave_timer := 19/2, wave_duration := 45,
        is_wave_active := true, enemies_defeated := 10,
        total_wave_enemies := 10, wave_completion_bonus := 100 } 0).1.is_wave_active
      = false ∧
    (WaveSystem.complete_wave
      { current_wave := 1, wave_timer := 19/2, wave_duration := 45,
        is_wave_active := true, enemies_defeated := 10,
        total_wave_enemies := 10, wave_completion_bonus := 100 } 0).2.2 =
      some (.attributeError
        "WaveSystem object has no attribute _prepare_next_wave") ∧
    WaveSystem.update
      { current_wave := 1, wave_timer := 19/2, wave_duration := 45,
        is_wave_active := true, enemies_defeated := 10,
        total_wave_enemies := 10, wave_completion_bonus := 100 } (1/2) 0 0 =
      WaveSystem.complete_wave
        { current_wave := 1, wave_timer := 19/2 + 1/2, wave_duration := 45,
          is_wave_active := true, enemies_defeated := 10,
          total_wave_enemies := 10, wave_completion_bonus := 100 } 0 := by
  have h := claim_C4
    { current_wave := 1, wave_timer := 19/2, wave_duration := 45,
      is_wave_active := true, enemies_defeated := 10,
      total_wave_enemies := 10, wave_completion_bonus := 100 } 0 (1/2) 0
    rfl (by norm_num [WaveSystem.is_wave_completed])
  exact ⟨⟨rfl, by norm_num [WaveSystem.is_wave_completed]⟩,
    h.1, h.2.1, h.2.2.1, h.2.2.2⟩

/-- C5: in the player-bullets-versus-enemies pass, whenever at least
one mask hit occurs, every hit bullet is destroyed and the first hit
enemy takes exactly `bullet.damage` - but the pass then raises
`NameError` (the module never imports `GameSettings`), so no impact
particle burst is emitted and no screen-shake request is made, instead
of completing as the claim states. -/
theorem claim_C5 (hits : PBullet → ℕ → Bool) (bullets : List PBullet)
    (enemies : List CEnemy) (pc : ℕ) (b : PBullet) (i : ℕ) (idxs : List ℕ)
    (rest : List (PBullet × List ℕ))
    (hpairs : groupcollide hits bullets enemies.length = (b, i :: idxs) :: rest) :
    (collisionPass1 hits bullets enemies pc).1 =
      bullets.filter
        (fun b => ((List.range enemies.length).filter (hits b)).isEmpty) ∧
    (collisionPass1 hits bullets enemies pc).2.1 =
      enemies.set i ((enemies.getD i defaultEnemy).take_damage b.damage) ∧
    (collisionPass1 hits bullets enemies pc).2.2.1 = pc ∧
    (collisionPass1 hits bullets enemies pc).2.2.2.1 = [] ∧
    (collisionPass1 hits bullets enemies pc).2.2.2.2 =
      some (.nameError "name GameSettings is not defined") := by
  unfold collisionPass1
  rw [hpairs]
  simp [runPass1Handlers, runPairHandlers, handle_player_bullet_enemy]

/-- C5 witness: one player bullet of damage 25 mask-hitting the single
scout (health 40): no particle count change, no shake request, and the
`NameError` propagates out of the pass. -/
theorem claim_C5_witness :
    (collisionPass1 (fun _ _ => true) [{ damage := 25 }]
        [{ health := 40, max_health := 40, hit_flash_timer := 0, alive := true }]
        7).2.2.1 = 7 ∧
    (collisionPass1 (fun _ _ => true) [{ damage := 25 }]
        [{ health := 40, max_health := 40, hit_flash_timer := 0, alive := true }]
        7).2.2.2.1 = [] ∧
    (collisionPass1 (fun _ _ => true) [{ damage := 25 }]
        [{ health := 40, max_health := 40, hit_flash_timer := 0, alive := true }]
        7).2.2.2.2 = some (.nameError "name GameSettings is not defined") :=
  (claim_C5 (fun _ _ => true) [{ damage := 25 }]
    [{ health := 40, max_health := 40, hit_flash_timer := 0, alive := true }]
    7 { damage := 25 } 0 [] [] rfl).2.2

/-- C6: with the cooldown elapsed, the code fires exactly when the
player rect center is strictly inside the ±100 horizontal corridor AND
strictly ABOVE the enemy (`player.rect.centery < self.rect.centery` in
screen coordinates) - the opposite vertical side from the claim; in
particular it never fires at a player below the enemy. -/
theorem claim_C6 (e : EnemyShoot) (pr : PlayerRectC) (delta_time : ℚ) :
    ((Enemy.update_shooting e delta_time (some pr)).2 = true ↔
      (e.shot_cooldown - delta_time ≤ 0 ∧
        pr.centerx - 100 < e.centerx ∧ e.centerx < pr.centerx + 100 ∧
        pr.centery < e.centery)) ∧
    (e.centery < pr.centery →
      (Enemy.update_shooting e delta_time (some pr)).2 = false) := by
  constructor
  · simp only [Enemy.update_shooting]
    split_ifs with h1 h2 <;> simp_all
  · intro hbelow
    simp only [Enemy.update_shooting]
    split_ifs with h1 h2
    · exact absurd h2.2.2 (by omega)
    · rfl
    · rfl

/-- C6 witness: enemy centered at (600, 100) with its cooldown
elapsed, player centered at (600, 700) - below the enemy and dead
center in the corridor: the enemy does not fire. -/
theorem claim_C6_witness :
    ((⟨600, 100, 0, 2000⟩ : EnemyShoot).centery <
        (⟨600, 700⟩ : PlayerRectC).centery) ∧
    (Enemy.update_shooting ⟨600, 100, 0, 2000⟩ 1 (some ⟨600, 700⟩)).2 = false :=
  ⟨by decide, (claim_C6 ⟨600, 100, 0, 2000⟩ ⟨600, 700⟩ 1).2 (by decide)⟩

/-- C7: over every sequence of `add_particle` calls (each factory
helper and emitter inserts through `add_particle`), the live particle
count never exceeds `MAX_PARTICLES`, and a call arriving at the cap
leaves the particle list unchanged. -/
theorem claim_C7 (start : List Particle)
    (hstart : start.length ≤ MAX_PARTICLES) :
    (∀ batch : List Particle,
      (ParticleSystem.add_all start batch).length ≤ MAX_PARTICLES) ∧
    (start.length = MAX_PARTICLES →
      ∀ p, ParticleSystem.add_particle start p = start) := by
  constructor
  · intro batch
    induction batch generalizing start with
    | nil => simpa [ParticleSystem.add_all] using hstart
    | cons p rest ih =>
      have h1 : (ParticleSystem.add_particle start p).length ≤ MAX_PARTICLES := by
        unfold ParticleSystem.add_particle
        split_ifs with h
        · simpa using h
        · exact hstart
      simpa [ParticleSystem.add_all, List.foldl_cons] using ih _ h1
  · intro hfull p
    unfold ParticleSystem.add_particle
    rw [if_neg (by omega)]

/-- C7 witness: starting from a full system of 500 particles, every
further batch leaves the count at most 500, and one more
`add_particle` is dropped. -/
theorem claim_C7_witness :
    (List.replicate MAX_PARTICLES
        ({ position := (0, 0), velocity := (0, 0), lifetime := 1 } : Particle)).length
      ≤ MAX_PARTICLES ∧
    ((∀ batch : List Particle,
        (ParticleSystem.add_all
          (List.replicate MAX_PARTICLES
            ({ position := (0, 0), velocity := (0, 0), lifetime := 1 } : Particle))
          batch).length ≤ MAX_PARTICLES) ∧
     ((List.replicate MAX_PARTICLES
          ({ position := (0, 0), velocity := (0, 0), lifetime := 1 } : Particle)).length
        = MAX_PARTICLES →
      ∀ p, ParticleSystem.add_particle
          (List.replicate MAX_PARTICLES
            ({ position := (0, 0), velocity := (0, 0), lifetime := 1 } : Particle)) p
        = List.replicate MAX_PARTICLES
            ({ position := (0, 0), velocity := (0, 0), lifetime := 1 } : Particle))) :=
  ⟨by simp, claim_C7 _ (by simp)⟩

/-- C10: `Enemy.shoot` never touches any bullet container - the
groups come back unchanged and the only field the enemy state can
change is `last_shot_time`; consequently the enemy-bullet group stays
empty and collision pass 2 on an empty enemy-bullet group is a no-op
on the player. -/
theorem claim_C10 (e : EnemyGun) (now : ℤ) (groups : BulletGroups) :
    (Enemy.shoot e now groups).2 = groups ∧
    (Enemy.shoot e now groups).1 =
      { e with last_shot_time :=
          if e.fire_rate ≤ now - e.last_shot_time then now
          else e.last_shot_time } ∧
    (∀ hits (player : Player) (tick : ℤ) pc,
      collisionPass2 hits [] player tick pc = ([], player, pc, [], none)) := by
  refine ⟨?_, ?_, ?_⟩
  · unfold Enemy.shoot
    split_ifs <;> rfl
  · unfold Enemy.shoot
    split_ifs with h <;> simp [h]
  · intro hits player tick pc
    rfl

/-- C8: with a dead or absent target, `HomingMissile.update` raises
nothing and flies straight: the heading and speed are unchanged and
the position advances by `direction * speed * delta_time * 60`; with a
live target (at a distinct point, so the bearing is defined), the
heading angle changes by at most the capped rate
`radians(turn_rate) * delta_time * 60`. -/
theorem claim_C8 (m : Missile) (delta_time : ℝ) (now : ℤ) :
    (m.target_alive = false →
      HomingMissile.update m delta_time now =
        .ok (Bullet.update_base m delta_time now) ∧
      (Bullet.update_base m delta_time now).direction = m.direction ∧
      (Bullet.update_base m delta_time now).speed = m.speed ∧
      (Bullet.update_base m delta_time now).position =
        (m.position.1 + m.direction.1 * m.speed * delta_time * 60,
         m.position.2 + m.direction.2 * m.speed * delta_time * 60)) ∧
    (m.target_alive = true → m.target_center ≠ m.position →
      0 ≤ delta_time → 0 ≤ m.turn_rate →
      |m.new_angle delta_time - m.current_angle| ≤ m.max_turn delta_time ∧
      HomingMissile.update m delta_time now =
        .ok (Bullet.update_base
          { m with
            direction := (Real.cos (m.new_angle delta_time),
                          -Real.sin (m.new_angle delta_time))
            speed := m.speed + m.acceleration * delta_time * 60 }
          delta_time now)) := by
  constructor
  · intro hdead
    refine ⟨?_, rfl, rfl, rfl⟩
    simp [HomingMissile.update, hdead]
  · intro halive hne hdt htr
    have hmt : 0 ≤ m.max_turn delta_time := by
      unfold Missile.max_turn radians
      exact mul_nonneg
        (mul_nonneg (div_nonneg (mul_nonneg htr Real.pi_pos.le)
          (by norm_num)) hdt) (by norm_num)
    constructor
    · have hna : m.new_angle delta_time - m.current_angle =
          m.turn_amount delta_time := by
        unfold Missile.new_angle; ring
      rw [hna]
      unfold Missile.turn_amount
      rw [abs_le]
      exact ⟨le_max_left _ _,
        max_le (by linarith) (min_le_left _ _)⟩
    · simp [HomingMissile.update, halive, hne]

/-- C8 witness: a missile at the origin heading straight up whose
target has died flies on unchanged without an error, and the same
missile with a live target at (100, 100) turns by at most the cap. -/
theorem claim_C8_witness :
    (HomingMissile.update
        (⟨(0, 0), (0, -1), 36/5, 50, false, (0, 0), 2, 1/10, 2000, 0, true⟩ :
          Missile) (1/60) 16 =
      .ok (Bullet.update_base
        ⟨(0, 0), (0, -1), 36/5, 50, false, (0, 0), 2, 1/10, 2000, 0, true⟩
        (1/60) 16) ∧
     (Bullet.update_base
        (⟨(0, 0), (0, -1), 36/5, 50, false, (0, 0), 2, 1/10, 2000, 0, true⟩ :
          Missile) (1/60) 16).direction =
      (⟨(0, 0), (0, -1), 36/5, 50, false, (0, 0), 2, 1/10, 2000, 0, true⟩ :
        Missile).direction ∧
     (Bullet.update_base
        (⟨(0, 0), (0, -1), 36/5, 50, false, (0, 0), 2, 1/10, 2000, 0, true⟩ :
          Missile) (1/60) 16).speed =
      (⟨(0, 0), (0, -1), 36/5, 50, false, (0, 0), 2, 1/10, 2000, 0, true⟩ :
        Missile).speed ∧
     (Bullet.update_base
        (⟨(0, 0), (0, -1), 36/5, 50, false, (0, 0), 2, 1/10, 2000, 0, true⟩ :
          Missile) (1/60) 16).position =
      ((⟨(0, 0), (0, -1), 36/5, 50, false, (0, 0), 2, 1/10, 2000, 0, true⟩ :
          Missile).position.1 +
        (⟨(0, 0), (0, -1), 36/5, 50, false, (0, 0), 2, 1/10, 2000, 0, true⟩ :
          Missile).direction.1 *
        (⟨(0, 0), (0, -1), 36/5, 50, false, (0, 0), 2, 1/10, 2000, 0, true⟩ :
          Missile).speed * (1/60) * 60,
       (⟨(0, 0), (0, -1), 36/5, 50, false, (0, 0), 2, 1/10, 2000, 0, true⟩ :
          Missile).position.2 +
        (⟨(0, 0), (0, -1), 36/5, 50, false, (0, 0), 2, 1/10, 2000, 0, true⟩ :
          Missile).direction.2 *
        (⟨(0, 0), (0, -1), 36/5, 50, false, (0, 0), 2, 1/10, 2000, 0, true⟩ :
          Missile).speed * (1/60) * 60)) ∧
    (|(⟨(0, 0), (0, -1), 36/5, 50, true, (100, 100), 2, 1/10, 2000, 0, true⟩ :
        Missile).new_angle (1/60) -
      (⟨(0, 0), (0, -1), 36/5, 50, true, (100, 100), 2, 1/10, 2000, 0, true⟩ :
        Missile).current_angle| ≤
      (⟨(0, 0), (0, -1), 36/5, 50, true, (100, 100), 2, 1/10, 2000, 0, true⟩ :
        Missile).max_turn (1/60)) :=
  ⟨(claim_C8 _ (1/60) 16).1 rfl,
   ((claim_C8 _ (1/60) 16).2 rfl (by norm_num [Prod.ext_iff])
      (by norm_num) (by norm_num)).1⟩

/-- C9 counterexample: the V-formation spawn path places its
fifth-row left-wing enemy at center (360, 20) - already strictly
overlapping the screen - and the frame-end cleanup keeps it, so not
every spawn path places enemies above the top edge, and not every
freshly spawned enemy is purged in its spawn frame. -/
theorem claim_C9_counterexample :
    ((600 - 4 * 60, -100 + 4 * 30) ∈ spawn_v_centers ∧
     is_on_screen (spawn_rect .SCOUT (600 - 4 * 60) (-100 + 4 * 30)) = true) ∧
    frame_end_enemies [] [spawn_rect .SCOUT (600 - 4 * 60) (-100 + 4 * 30)] =
      [spawn_rect .SCOUT (600 - 4 * 60) (-100 + 4 * 30)] := by
  refine ⟨⟨?_, ?_⟩, ?_⟩ <;> decide

/-- C9 (amended): the cleanup pass, which runs after spawning within
the same PLAYING frame, removes exactly the enemies whose rect does
not strictly overlap the screen on all four edges; every enemy whose
rect bottom is ≤ 0 at spawn is therefore purged that frame.  The
random, line, wave and boss paths and the first three V-formation rows
place all enemies with center y ≤ -40, which for every enemy size
keeps the rect bottom ≤ 0; the circle formation does too (center
y = -150 + 100 sin θ ≤ -50, truncated).  The exception is the V
formation, whose fourth and fifth rows (center y = -10 and y = 20)
spawn already overlapping the screen and survive the cleanup. -/
theorem claim_C9 (existing spawned : List IRect) :
    (∀ r ∈ spawned, is_on_screen r = false →
      r ∉ frame_end_enemies existing spawned) ∧
    (∀ r : IRect, is_on_screen r = true ↔
      (0 < r.right ∧ r.left < 1200 ∧ 0 < r.bottom ∧ r.top < 800)) ∧
    (∀ t cx cy, cy ≤ -40 →
      (spawn_rect t cx cy).bottom ≤ 0 ∧
        is_on_screen (spawn_rect t cx cy) = false) ∧
    ((∀ x : ℤ, (spawn_random_center x).2 ≤ -40) ∧
     (∀ c ∈ spawn_line_centers, c.2 ≤ -40) ∧
     (∀ (sx : ℤ) (jitter : ℕ → ℤ) (n : ℕ),
        ∀ c ∈ spawn_wave_centers sx jitter n, c.2 ≤ -40) ∧
     spawn_boss_center.2 ≤ -40 ∧
     (∀ c ∈ spawn_v_centers.take 6, c.2 ≤ -40)) ∧
    (∀ t i, (spawn_rect_real t (spawn_circle_center i)).bottom ≤ 0) ∧
    (∀ t, spawn_rect t 360 20 ∈
      frame_end_enemies existing [spawn_rect t 360 20]) := by
  refine ⟨?_, ?_, ?_, ⟨?_, ?_, ?_, ?_, ?_⟩, ?_, ?_⟩
  · intro r hr hoff hmem
    have := List.mem_filter.mp hmem
    simp_all [frame_end_enemies, cleanup_enemies]
  · intro r
    simp [is_on_screen, and_assoc]
  · intro t cx cy hcy
    constructor
    · cases t <;> simp [spawn_rect, enemy_size, IRect.bottom] <;> omega
    · cases t <;> simp [spawn_rect, enemy_size, is_on_screen, IRect.bottom] <;>
        omega
  · intro x
    simp [spawn_random_center]
  · intro c hc
    simp only [spawn_line_centers, List.mem_map, List.mem_range] at hc
    obtain ⟨i, _, rfl⟩ := hc
    simp
  · intro sx jitter n c hc
    simp only [spawn_wave_centers, List.mem_map, List.mem_range] at hc
    obtain ⟨i, _, rfl⟩ := hc
    simp only
    omega
  · simp [spawn_boss_center]
  · decide
  · intro t i
    have hsin : Real.sin (2 * Real.pi / 8 * i) ≤ 1 := Real.sin_le_one _
    have hcy : (spawn_circle_center i).2 ≤ -50 := by
      simp only [spawn_circle_center]
      nlinarith
    have hneg : ¬ (0 : ℝ) ≤ (spawn_circle_center i).2 := by linarith
    have hceil : ⌈(spawn_circle_center i).2⌉ ≤ -50 := by
      calc ⌈(spawn_circle_center i).2⌉ ≤ ⌈(-50 : ℝ)⌉ := Int.ceil_le_ceil hcy
        _ = -50 := by
          rw [show ((-50 : ℝ)) = ((-50 : ℤ) : ℝ) by norm_num, Int.ceil_intCast]
    have htr : pyIntR (spawn_circle_center i).2 ≤ -50 := by
      unfold pyIntR
      rw [if_neg hneg]
      exact hceil
    cases t <;>
      simp only [spawn_rect_real, spawn_rect, enemy_size, IRect.bottom] <;>
      omega
  · intro t
    refine List.mem_filter.mpr ⟨by simp, ?_⟩
    cases t <;> decide

/-- C9 witness: a random-path scout spawned at (600, -50) is off
screen and purged by the same frame's cleanup. -/
theorem claim_C9_witness :
    is_on_screen (spawn_rect .SCOUT 600 (-50)) = false ∧
    spawn_rect .SCOUT 600 (-50) ∉
      frame_end_enemies [] [spawn_rect .SCOUT 600 (-50)] :=
  ⟨by decide, (claim_C9 [] [spawn_rect .SCOUT 600 (-50)]).1
    (spawn_rect .SCOUT 600 (-50)) (by simp) (by decide)⟩

/-- C2 witness: the amended preservation statement instantiated at
the freshly constructed player. -/
theorem claim_C2_witness :
    PlayerInv Player.init ∧
    ((∀ d now, 0 ≤ d → PlayerInv (Player.init.take_damage d now)) ∧
     (∀ a, 0 ≤ a → PlayerInv (Player.init.heal a)) ∧
     (∀ amount fuel, PlayerInv (Player.init.add_experience amount fuel)) ∧
     (∀ u, PlayerInv (Player.init.apply_upgrade u).1) ∧
     (∀ delta_time now, PlayerInv (Player.init.update_stats delta_time now))) :=
  ⟨by decide, claim_C2 Player.init (by decide)⟩

end NotLife
